import Mathlib

/-!
Shallow embedding of the AI-Chatbot-with-Company-Data-Analysis repository:
the query interpreter (`nlp_processor.py`), the five aggregators
(`analytics_engine.py`) and the router (`main.py`).

Strings are embedded as Lean `String` / `List Char` (ASCII fragment of the
Python semantics), pandas `DataFrame`s as `List Row`, floating point sums as
exact rationals, and `sort_values` as a stable insertion sort (numpy uses a
stable insertion sort for the small arrays this program produces).
-/

namespace Chatbot

/-! ### nlp_processor.py -/

/-- The fixed region list: `REGIONS = ["north", "south", "east", "west"]`. -/
def REGIONS : List String := ["north", "south", "east", "west"]

/-- Python substring containment `needle in hay` on character lists. -/
def isSubstr : List Char → List Char → Bool
  | n, [] => n.isEmpty
  | n, h :: t => n.isPrefixOf (h :: t) || isSubstr n t

/-- Lowered characters of a message, `message.lower()` (ASCII lowering). -/
def lowerChars (s : String) : List Char := s.data.map Char.toLower

/-- Python regex `\w`: ASCII letters, digits and underscore. -/
def isWordChar (c : Char) : Bool := c.isAlphanum || c = '_'

/-- A word-bounded match of `20\d\d` starting at index `i` of `cs`:
characters `i..i+3` are `2`, `0`, digit, digit, the character before `i`
(if any) is not a word character, and neither is the one after `i+3`.
Returns the integer value of the 4-digit token. -/
def yearTokenAt (cs : List Char) (i : Nat) : Option Int :=
  match cs.get? i, cs.get? (i+1), cs.get? (i+2), cs.get? (i+3) with
  | some c0, some c1, some c2, some c3 =>
    if c0 = '2' && c1 = '0' && c2.isDigit && c3.isDigit
        && (match i with
            | 0 => true
            | j + 1 => !(isWordChar ((cs.get? j).getD ' ')))
        && (match cs.get? (i+4) with
            | some c4 => !(isWordChar c4)
            | none => true)
    then some ((2000 : Int) + 10 * (c2.toNat - 48) + (c3.toNat - 48))
    else none
  | _, _, _, _ => none

/-- Whether `re.search` finds a word-bounded `20\d\d` token in the text. -/
def hasYearToken (cs : List Char) : Bool :=
  (List.range cs.length).any (fun i => (yearTokenAt cs i).isSome)

/-- Test `any(word in text for word in ["compare", "vs", "versus"])`. -/
def hasCompareKw (text : List Char) : Bool :=
  isSubstr "compare".data text || isSubstr "vs".data text ||
    isSubstr "versus".data text

/-- Function `detect_intent` from `nlp_processor.py`: the ordered keyword
cascade. -/
def detect_intent (message : String) : String :=
  let text := lowerChars message
  if hasCompareKw text && hasYearToken text then "year_comparison"
  else if isSubstr "trend".data text || isSubstr "over time".data text ||
      isSubstr "monthly".data text then "monthly_trend"
  else if isSubstr "region".data text ||
      REGIONS.any (fun r => isSubstr r.data text) then "sales_by_region"
  else if isSubstr "top".data text || isSubstr "best".data text ||
      isSubstr "highest".data text then "top_products"
  else if isSubstr "total".data text || isSubstr "overall".data text ||
      isSubstr "revenue".data text then "total_sales"
  else "unknown"

/-- Function `extract_years`: `re.findall` of `20\d\d` word-bounded, collected
into a deduplicated set and sorted ascending.  Word-bounded matches of
this pattern are pairwise disjoint, so the left-to-right non-overlapping
scan of `findall` finds exactly the positions where `yearTokenAt`
succeeds. -/
def extract_years (message : String) : List Int :=
  (((List.range message.data.length).filterMap
      (yearTokenAt message.data)).dedup).insertionSort (· ≤ ·)

/-- The `seen`/`unique` loop of `extract_regions`: keep an element when it is
not in `seen` yet. -/
def dedupFirstAux {α : Type} [DecidableEq α] : List α → List α → List α
  | _, [] => []
  | seen, x :: xs =>
    if x ∈ seen then dedupFirstAux seen xs
    else x :: dedupFirstAux (x :: seen) xs

/-- First-occurrence de-duplication (`seen` starts empty). -/
def dedupFirst {α : Type} [DecidableEq α] (l : List α) : List α :=
  dedupFirstAux [] l

/-- Python `str.capitalize()`: first character upper-cased, rest lowered. -/
def capitalizeStr (s : String) : String :=
  match s.data with
  | [] => ""
  | c :: cs => String.mk (c.toUpper :: cs.map Char.toLower)

/-- Function `extract_regions`: scan the fixed `REGIONS` list, keep the
(capitalized)
names contained in the lowered message, de-duplicate keeping first
occurrences. -/
def extract_regions (message : String) : List String :=
  let text := lowerChars message
  dedupFirst ((REGIONS.filter (fun r => isSubstr r.data text)).map
    capitalizeStr)

/-- Python regex `\s` (ASCII whitespace). -/
def pySpace (c : Char) : Bool :=
  c = ' ' || c = '\t' || c = '\n' || c = '\r' ||
    c = Char.ofNat 11 || c = Char.ofNat 12

/-- Decimal value of a digit run (`int` of the matched group). -/
def digitsVal (ds : List Char) : Nat :=
  ds.foldl (fun a c => 10 * a + (c.toNat - 48)) 0

/-- Try to match `top\s+(\d+)` at the very start of `cs`: the literal `top`,
at least one whitespace, then a maximal digit run (the greedy group); on
success return `max 1 (int (group 1))` as the code does. -/
def tryTopAt (cs : List Char) : Option Nat :=
  match cs with
  | c1 :: c2 :: c3 :: rest =>
    if c1 = 't' ∧ c2 = 'o' ∧ c3 = 'p' then
      if (rest.takeWhile pySpace).isEmpty then none
      else if ((rest.dropWhile pySpace).takeWhile Char.isDigit).isEmpty then
        none
      else some (max 1 (digitsVal
        ((rest.dropWhile pySpace).takeWhile Char.isDigit)))
    else none
  | _ => none

/-- Leftmost-match scan for `re.search(r"top\s+(\d+)", text)`. -/
def scanTopN : List Char → Option Nat
  | [] => none
  | c :: rest =>
    match tryTopAt (c :: rest) with
    | some n => some n
    | none => scanTopN rest

/-- Function `extract_top_n` from `nlp_processor.py`. -/
def extract_top_n (message : String) : Option Nat :=
  scanTopN (lowerChars message)

/-- The `ParsedQuery` dataclass. -/
structure ParsedQuery where
  intent : String
  years : List Int
  regions : List String
  top_n : Option Nat := none

/-- Function `parse_user_message`. -/
def parse_user_message (message : String) : ParsedQuery :=
  { intent := detect_intent message
    years := extract_years message
    regions := extract_regions message
    top_n := extract_top_n message }

/-! ### analytics_engine.py -/

/-- One row of the sales dataset (schema fixed by `data_loader.py`).
Monetary amounts are embedded as exact rationals. -/
structure Row where
  order_date : String := ""
  year : Int
  month : Nat := 1
  region : String
  product : String := ""
  category : String := ""
  quantity : Nat := 1
  unit_price : ℚ := 0
  total_sales : ℚ := 0
  deriving DecidableEq

/-- The `AnalysisResult` dataclass; `α` is the row type of the intent-specific
result table. -/
structure AnalysisResult (α : Type) where
  intent : String
  table : List α
  years : List Int
  regions : List String
  description : String

/-- Function `_filter_data`: optional year/region restriction; an empty list
means
"no restriction" (Python truthiness of `None` and `[]`). -/
def _filter_data (df : List Row) (years : List Int) (regions : List String) :
    List Row :=
  let f1 := if years.isEmpty then df else df.filter (fun r => r.year ∈ years)
  if regions.isEmpty then f1 else f1.filter (fun r => r.region ∈ regions)

/-- Round-half-to-even to an integer (Python `round` on an exact value). -/
def roundHalfEven (q : ℚ) : Int :=
  let f := ⌊q⌋
  if q - f < 1/2 then f
  else if (1 : ℚ)/2 < q - f then f + 1
  else if f % 2 = 0 then f else f + 1

/-- Python `round(x, 2)`. -/
def pyRound2 (q : ℚ) : ℚ := (roundHalfEven (100 * q) : ℚ) / 100

/-- Sum of the `total_sales` column. -/
def sumSales (rows : List Row) : ℚ := (rows.map Row.total_sales).sum

/-- Python string comparison: lexicographic on the code points, i.e. on the
underlying character lists (this is also how `String < String` is defined). -/
def strDataLe (a b : String) : Prop := a.data ≤ b.data

instance : DecidableRel strDataLe :=
  fun a b => inferInstanceAs (Decidable (a.data ≤ b.data))

instance : IsTotal String strDataLe := ⟨fun a b => le_total a.data b.data⟩

instance : IsTrans String strDataLe := ⟨fun _ _ _ => le_trans⟩

/-- The distinct keys of a pandas `groupby`, sorted ascending by `r`
(`groupby` sorts group keys; `sort=True` is the default). -/
def groupKeys {K : Type} [DecidableEq K] (r : K → K → Prop) [DecidableRel r]
    (key : Row → K) (rows : List Row) : List K :=
  ((rows.map key).dedup).insertionSort r

/-- Embeds `rows.groupby(key)` summing the sales column: one `(key, sum)`
pair per
distinct key, keys ascending by `r`. -/
def groupSumsBy {K : Type} [DecidableEq K] (r : K → K → Prop) [DecidableRel r]
    (key : Row → K) (rows : List Row) : List (K × ℚ) :=
  (groupKeys r key rows).map
    (fun k => (k, sumSales (rows.filter (fun rw => key rw = k))))

/-- The `sort_values(ascending=False)` comparison: descending by the summed
value. -/
def valDesc {K : Type} (a b : K × ℚ) : Prop := b.2 ≤ a.2

instance {K : Type} : DecidableRel (valDesc (K := K)) :=
  fun a b => inferInstanceAs (Decidable (b.2 ≤ a.2))

instance {K : Type} : IsTotal (K × ℚ) valDesc :=
  ⟨fun a b => le_total b.2 a.2⟩

instance {K : Type} : IsTrans (K × ℚ) valDesc :=
  ⟨fun _ _ _ hab hbc => le_trans hbc hab⟩

/-- The `sort_values(column)` ascending comparison on the key column. -/
def keyAsc {K : Type} [LinearOrder K] (a b : K × ℚ) : Prop := a.1 ≤ b.1

instance {K : Type} [LinearOrder K] : DecidableRel (keyAsc (K := K)) :=
  fun a b => inferInstanceAs (Decidable (a.1 ≤ b.1))

instance {K : Type} [LinearOrder K] : IsTotal (K × ℚ) keyAsc :=
  ⟨fun a b => le_total a.1 b.1⟩

instance {K : Type} [LinearOrder K] : IsTrans (K × ℚ) keyAsc :=
  ⟨fun _ _ _ hab hbc => le_trans hab hbc⟩

/-- Python `", ".join(map(str, years))`. -/
def joinInts (ys : List Int) : String :=
  String.intercalate ", " (ys.map toString)

/-- The `total_sales` aggregator. -/
def total_sales (df : List Row) (years : List Int := [])
    (regions : List String := []) : AnalysisResult ℚ :=
  let data := _filter_data df years regions
  { intent := "total_sales"
    table := [pyRound2 (sumSales data)]
    years := years
    regions := regions
    description := "Total sales" ++
      (if years.isEmpty then "" else " for years " ++ joinInts years) ++
      (if regions.isEmpty then "" else
        " in regions " ++ String.intercalate ", " regions) }

/-- The `top_n_products` aggregator: group by product, sum, sort descending
(stable), truncate to `n`. -/
def top_n_products (df : List Row) (n : Nat := 5) (years : List Int := [])
    (regions : List String := []) : AnalysisResult (String × ℚ) :=
  let data := _filter_data df years regions
  { intent := "top_products"
    table := ((groupSumsBy strDataLe Row.product data).insertionSort valDesc).take n
    years := years
    regions := regions
    description := "Top " ++ toString n ++ " products by sales" ++
      (if years.isEmpty then "" else " in years " ++ joinInts years) ++
      (if regions.isEmpty then "" else
        " for regions " ++ String.intercalate ", " regions) }

/-- The `sales_by_region` aggregator (regions filter is never applied). -/
def sales_by_region (df : List Row) (years : List Int := []) :
    AnalysisResult (String × ℚ) :=
  let data := _filter_data df years []
  let grouped := (groupSumsBy strDataLe Row.region data).insertionSort valDesc
  { intent := "sales_by_region"
    table := grouped
    years := years
    regions := grouped.map Prod.fst
    description := "Sales by region" ++
      (if years.isEmpty then "" else " for years " ++ joinInts years) }

/-- The row set `monthly_trend` aggregates over (its own `year == ...` /
`region == ...` filters, not `_filter_data`). -/
def monthlyData (df : List Row) (year : Option Int) (region : Option String) :
    List Row :=
  let d1 := match year with
    | some y => df.filter (fun r => r.year = y)
    | none => df
  match region with
  | some rg => d1.filter (fun r => r.region = rg)
  | none => d1

/-- The `monthly_trend` aggregator: group by month, sum, `sort_index()`
ascending. -/
def monthly_trend (df : List Row) (year : Option Int := none)
    (region : Option String := none) : AnalysisResult (Nat × ℚ) :=
  let data := monthlyData df year region
  { intent := "monthly_trend"
    table := groupSumsBy (fun a b : Nat => a ≤ b) Row.month data
    years := match year with | some y => [y] | none => []
    regions := match region with | some rg => [rg] | none => []
    description := "Monthly sales trend" ++
      (match year with | some y => " for " ++ toString y | none => "") ++
      (match region with | some rg => " in " ++ rg | none => "") }

/-- Distinct years present in the dataset, ascending
(`sorted(df["year"].unique().tolist())`). -/
def sortedDistinctYears (df : List Row) : List Int :=
  ((df.map Row.year).dedup).insertionSort (· ≤ ·)

/-- The years `year_comparison` actually uses: fewer than 2 requested years
falls back to all distinct years of the dataset. -/
def yearsUsed (df : List Row) (years : List Int) : List Int :=
  if years.length < 2 then sortedDistinctYears df else years

/-- Python `[region] if region else None` (empty string is falsy). -/
def regionListOf (region : Option String) : List String :=
  match region with
  | some rg => if rg = "" then [] else [rg]
  | none => []

/-- The `year_comparison` aggregator: group by year, sum,
`sort_values("year")` ascending. -/
def year_comparison (df : List Row) (years : List Int := [])
    (region : Option String := none) : AnalysisResult (Int × ℚ) :=
  let ys := yearsUsed df years
  let data := _filter_data df ys (regionListOf region)
  { intent := "year_comparison"
    table := (groupSumsBy (fun a b : Int => a ≤ b) Row.year data).insertionSort keyAsc
    years := ys
    regions := regionListOf region
    description := "Year-on-year sales comparison" ++
      (match region with
        | some rg => if rg = "" then "" else " for region " ++ rg
        | none => "") }

/-! ### main.py -/

/-- The five aggregator result types, as routed by `handle_query`. -/
inductive RoutedResult where
  | total (r : AnalysisResult ℚ)
  | top (r : AnalysisResult (String × ℚ))
  | byRegion (r : AnalysisResult (String × ℚ))
  | trend (r : AnalysisResult (Nat × ℚ))
  | yearComp (r : AnalysisResult (Int × ℚ))

/-- Python `parsed.top_n or 5` (0 and `None` are falsy). -/
def pyOrDefault (n : Option Nat) (d : Nat) : Nat :=
  match n with
  | some k => if k = 0 then d else k
  | none => d

/-- Function `handle_query` from `main.py`: route the parsed query to exactly
one
aggregator, `none` for any unmapped intent. -/
def handle_query (data : List Row) (parsed : ParsedQuery) :
    Option RoutedResult :=
  if parsed.intent = "total_sales" then
    some (.total (total_sales data parsed.years parsed.regions))
  else if parsed.intent = "top_products" then
    some (.top (top_n_products data (pyOrDefault parsed.top_n 5)
      parsed.years parsed.regions))
  else if parsed.intent = "sales_by_region" then
    some (.byRegion (sales_by_region data parsed.years))
  else if parsed.intent = "monthly_trend" then
    some (.trend (monthly_trend data parsed.years.head? parsed.regions.head?))
  else if parsed.intent = "year_comparison" then
    some (.yearComp (year_comparison data parsed.years parsed.regions.head?))
  else none

/-! ### Spec reading of the Top-N tie-break, and concrete datasets -/

/-- The Top-N table as the spec describes its tie-break: groups taken in
first-encountered order, then a stable descending sort and truncation.
(The code instead lets `groupby` pre-sort the group keys ascending.) -/
def specTopNTableFE (df : List Row) (n : Nat) (years : List Int)
    (regions : List String) : List (String × ℚ) :=
  let data := _filter_data df years regions
  (((dedupFirst (data.map Row.product)).map
      (fun k => (k, sumSales (data.filter (fun r => r.product = k))))
    ).insertionSort valDesc).take n

/-- Two products with equal summed sales, product "b" encountered first. -/
def dfTie : List Row :=
  [{ year := 2023, month := 1, region := "North", product := "b",
     total_sales := 5 },
   { year := 2023, month := 2, region := "South", product := "a",
     total_sales := 5 }]

/-- A dataset spanning the years 2021 to 2024. -/
def dfSpan : List Row :=
  [{ year := 2022, month := 1, region := "North", product := "a",
     total_sales := 3 },
   { year := 2021, month := 2, region := "South", product := "a",
     total_sales := 1 },
   { year := 2024, month := 3, region := "North", product := "b",
     total_sales := 4 },
   { year := 2023, month := 4, region := "East", product := "c",
     total_sales := 2 }]

/-- A one-row dataset; filtering by region "Mars" empties it. -/
def dfOne : List Row :=
  [{ year := 2023, month := 1, region := "North", product := "w",
     total_sales := 201/200 }]

/-! ## Helper lemmas -/

theorem groupSumsBy_nil {K : Type} [DecidableEq K] (r : K → K → Prop)
    [DecidableRel r] (key : Row → K) : groupSumsBy r key [] = [] := rfl

theorem mem_groupSumsBy {K : Type} [DecidableEq K] {r : K → K → Prop}
    [DecidableRel r] {key : Row → K}
    {rows : List Row} {pv : K × ℚ} (h : pv ∈ groupSumsBy r key rows) :
    pv.2 = sumSales (rows.filter (fun rw => key rw = pv.1)) := by
  obtain ⟨k, _, rfl⟩ := List.mem_map.mp h
  rfl

theorem sumSales_nil : sumSales [] = 0 := rfl

theorem pyRound2_zero : pyRound2 0 = 0 := by
  norm_num [pyRound2, roundHalfEven]

/-! ## C10 -/

/-- C10: intent keyword detection is plain substring containment on the
lowercased message, not word-bounded: a message containing "least" (which
contains "east") and no earlier-rule keyword is classified `sales_by_region`,
and a message containing "stop" (which contains "top") and no earlier-rule
keyword is classified `top_products`. -/
theorem c10_keywords_not_word_bounded :
    detect_intent "which product sold least" = "sales_by_region" ∧
    detect_intent "please stop" = "top_products" := by
  exact ⟨by decide, by decide⟩

/-! ## C1 -/

/-- C1: any message whose lowercased text contains one of "compare", "vs",
"versus" and a word-bounded `20\d\d` token is classified `year_comparison`,
regardless of any other keywords (rule 1 of the cascade wins). -/
theorem c1_compare_year_precedence (m : String)
    (h1 : hasCompareKw (lowerChars m) = true)
    (h2 : hasYearToken (lowerChars m) = true) :
    detect_intent m = "year_comparison" := by
  simp only [detect_intent, h1, h2, Bool.and_self, if_true]

theorem c1_witness :
    hasCompareKw (lowerChars "compare trend by region 2023") = true ∧
    detect_intent "compare trend by region 2023" = "year_comparison" :=
  ⟨by decide, c1_compare_year_precedence "compare trend by region 2023"
    (by decide) (by decide)⟩

/-! ## C5 -/

/-- C5: the router returns `none` for `unknown` or any intent outside the
five mapped ones, without touching an aggregator, and each mapped intent
dispatches to exactly the corresponding aggregator with the documented
parameter mapping. -/
theorem c5_router_dispatch (data : List Row) (p : ParsedQuery) :
    (p.intent ∉ ["total_sales", "top_products", "sales_by_region",
        "monthly_trend", "year_comparison"] →
      handle_query data p = none) ∧
    (p.intent = "total_sales" → handle_query data p =
      some (.total (total_sales data p.years p.regions))) ∧
    (p.intent = "top_products" → handle_query data p =
      some (.top (top_n_products data (pyOrDefault p.top_n 5)
        p.years p.regions))) ∧
    (p.intent = "sales_by_region" → handle_query data p =
      some (.byRegion (sales_by_region data p.years))) ∧
    (p.intent = "monthly_trend" → handle_query data p =
      some (.trend (monthly_trend data p.years.head? p.regions.head?))) ∧
    (p.intent = "year_comparison" → handle_query data p =
      some (.yearComp (year_comparison data p.years p.regions.head?))) := by
  refine ⟨fun h => ?_, fun h => ?_, fun h => ?_, fun h => ?_,
    fun h => ?_, fun h => ?_⟩
  · simp only [List.mem_cons, List.mem_singleton, not_or] at h
    obtain ⟨h1, h2, h3, h4, h5, -⟩ := h
    simp [handle_query, h1, h2, h3, h4, h5]
  all_goals simp [handle_query, h]

theorem c5_witness :
    handle_query [] { intent := "hello", years := [], regions := [] } =
      none :=
  (c5_router_dispatch []
    { intent := "hello", years := [], regions := [] }).1 (by decide)

/-! ## C4 -/

/-- C4: when the filtered row set is empty, no aggregator fails:
`total_sales` returns the single-row table `[0]` and every grouping
aggregator returns an empty table. -/
theorem c4_empty_filter_safe (df : List Row) (n : Nat) (ys : List Int)
    (rs : List String) (year : Option Int) (region : Option String) :
    (_filter_data df ys rs = [] →
      (total_sales df ys rs).table = [0] ∧
      (top_n_products df n ys rs).table = []) ∧
    (_filter_data df ys [] = [] → (sales_by_region df ys).table = []) ∧
    (monthlyData df year region = [] →
      (monthly_trend df year region).table = []) ∧
    (_filter_data df (yearsUsed df ys) (regionListOf region) = [] →
      (year_comparison df ys region).table = []) := by
  refine ⟨fun h => ⟨?_, ?_⟩, fun h => ?_, fun h => ?_, fun h => ?_⟩
  · simp only [total_sales]
    rw [h, sumSales_nil, pyRound2_zero]
  · simp only [top_n_products]
    rw [h, groupSumsBy_nil]
    exact List.take_nil
  · simp only [sales_by_region]
    rw [h]
    rfl
  · simp only [monthly_trend]
    rw [h]
    rfl
  · simp only [year_comparison]
    rw [h]
    rfl

theorem c4_witness :
    _filter_data dfOne [] ["Mars"] = [] ∧
    (total_sales dfOne [] ["Mars"]).table = [0] ∧
    (top_n_products dfOne 5 [] ["Mars"]).table = [] :=
  ⟨by decide,
   ((c4_empty_filter_safe dfOne 5 [] ["Mars"] none none).1 (by decide)).1,
   ((c4_empty_filter_safe dfOne 5 [] ["Mars"] none none).1 (by decide)).2⟩

/-! ## C6 -/

theorem dedupFirstAux_eq_self {α : Type} [DecidableEq α] (l : List α) :
    ∀ seen, l.Nodup → (∀ x ∈ l, x ∉ seen) → dedupFirstAux seen l = l := by
  induction l with
  | nil => intro seen _ _; rfl
  | cons x xs ih =>
    intro seen hnd hdisj
    simp only [dedupFirstAux]
    rw [if_neg (hdisj x (List.mem_cons_self x xs))]
    congr 1
    apply ih
    · exact (List.nodup_cons.mp hnd).2
    · intro y hy
      simp only [List.mem_cons, not_or]
      exact ⟨fun h => (List.nodup_cons.mp hnd).1 (h ▸ hy),
        hdisj y (List.mem_cons_of_mem x hy)⟩

theorem dedupFirst_eq_self {α : Type} [DecidableEq α] (l : List α)
    (h : l.Nodup) : dedupFirst l = l :=
  dedupFirstAux_eq_self l [] h (by simp)

/-- C6: `extract_regions` returns the capitalized regions contained in the
lowercased message, ordered by the fixed scan list (north, south, east,
west), never by order of appearance; the de-duplication step is the
identity here. -/
theorem c6_extract_regions_scan_order :
    (∀ m : String, extract_regions m =
      (REGIONS.filter (fun r => isSubstr r.data (lowerChars m))).map
        capitalizeStr) ∧
    extract_regions "Sales in north and South" = ["North", "South"] ∧
    extract_regions "we sell more in the south than in the north" =
      ["North", "South"] := by
  refine ⟨fun m => ?_, by decide, by decide⟩
  apply dedupFirst_eq_self
  apply List.Nodup.map_on
  · have hinj : ∀ x ∈ REGIONS, ∀ y ∈ REGIONS,
        capitalizeStr x = capitalizeStr y → x = y := by decide
    intro x hx y hy hxy
    exact hinj x (List.mem_of_mem_filter hx) y (List.mem_of_mem_filter hy) hxy
  · exact List.Nodup.filter _ (by decide)

/-! ## C3 -/

theorem yearsUsed_idem (df : List Row) :
    yearsUsed df (sortedDistinctYears df) = sortedDistinctYears df := by
  unfold yearsUsed
  split <;> rfl

/-- C3: with fewer than two requested years, `year_comparison` ignores the
request and behaves exactly as if all distinct years of the dataset (sorted
ascending) had been requested; the result table is sorted ascending by
year. -/
theorem c3_year_comparison_fallback (df : List Row) (years : List Int)
    (region : Option String) (h : years.length < 2) :
    (year_comparison df years region).years = sortedDistinctYears df ∧
    year_comparison df years region =
      year_comparison df (sortedDistinctYears df) region ∧
    List.Sorted keyAsc (year_comparison df years region).table := by
  have hyu : yearsUsed df years = sortedDistinctYears df := if_pos h
  refine ⟨?_, ?_, ?_⟩
  · simp only [year_comparison]
    rw [hyu]
  · simp only [year_comparison]
    rw [hyu, yearsUsed_idem]
  · simp only [year_comparison]
    exact List.sorted_insertionSort keyAsc _

theorem c3_witness :
    sortedDistinctYears dfSpan = [2021, 2022, 2023, 2024] ∧
    (year_comparison dfSpan [2023] none).years = sortedDistinctYears dfSpan :=
  ⟨by decide,
   (c3_year_comparison_fallback dfSpan [2023] none (by decide)).1⟩

/-! ## C2 -/

/-- Inserting an element whose key is strictly `lt`-below every key of `s`
into `s` preserves the "equal sums are ordered by key" invariant. -/
theorem pairwise_tie_orderedInsert {K : Type} (lt : K → K → Prop)
    (a : K × ℚ) (s : List (K × ℚ))
    (ht : s.Pairwise (fun x y => x.2 = y.2 → lt x.1 y.1))
    (ha : ∀ b ∈ s, lt a.1 b.1) :
    (s.orderedInsert valDesc a).Pairwise
      (fun x y => x.2 = y.2 → lt x.1 y.1) := by
  induction s with
  | nil => simp [List.orderedInsert]
  | cons b t ih =>
    by_cases hab : valDesc a b
    · simp only [List.orderedInsert, if_pos hab]
      exact List.pairwise_cons.mpr ⟨fun c hc _ => ha c hc, ht⟩
    · simp only [List.orderedInsert, if_neg hab]
      refine List.pairwise_cons.mpr ⟨?_, ?_⟩
      · intro c hc
        rcases (List.mem_orderedInsert valDesc).mp hc with rfl | hct
        · exact fun heq => absurd (le_of_eq heq) hab
        · exact (List.pairwise_cons.mp ht).1 c hct
      · exact ih (List.pairwise_cons.mp ht).2
          (fun c hc => ha c (List.mem_cons_of_mem b hc))

/-- The descending stable sort of a list whose keys are strictly increasing
leaves equal sums ordered by key. -/
theorem pairwise_tie_insertionSort {K : Type} (lt : K → K → Prop)
    (l : List (K × ℚ)) (hl : l.Pairwise (fun x y => lt x.1 y.1)) :
    (l.insertionSort valDesc).Pairwise
      (fun x y => x.2 = y.2 → lt x.1 y.1) := by
  induction l with
  | nil => simp [List.insertionSort]
  | cons a t ih =>
    simp only [List.insertionSort]
    obtain ⟨ha, ht⟩ := List.pairwise_cons.mp hl
    exact pairwise_tie_orderedInsert lt a _ (ih ht)
      (fun b hb => ha b ((List.mem_insertionSort valDesc).mp hb))

/-- The group keys produced for the product column are strictly increasing
in code-point order. -/
theorem groupKeys_product_strict (rows : List Row) :
    (groupKeys strDataLe Row.product rows).Pairwise
      (fun a b => a.data < b.data) := by
  have hnd : (groupKeys strDataLe Row.product rows).Nodup :=
    (List.perm_insertionSort strDataLe _).nodup_iff.mpr
      (List.nodup_dedup _)
  have hs : List.Sorted strDataLe (groupKeys strDataLe Row.product rows) :=
    List.sorted_insertionSort strDataLe _
  refine hs.imp₂ (fun a b hle hne => lt_of_le_of_ne hle (fun hd => hne ?_)) hnd
  cases a; cases b
  exact congrArg String.mk hd

/-- C2 counterexample: with two products of equal summed sales, the code
returns the tied groups in ascending product order ("a" before "b"), not in
first-encountered order ("b" before "a") as the claim states. -/
theorem c2_counterexample :
    (top_n_products dfTie 2 [] []).table = [("a", 5), ("b", 5)] ∧
    specTopNTableFE dfTie 2 [] [] = [("b", 5), ("a", 5)] ∧
    (top_n_products dfTie 2 [] []).table ≠ specTopNTableFE dfTie 2 [] [] := by
  have h1 : (top_n_products dfTie 2 [] []).table = [("a", 5), ("b", 5)] := by
    simp [top_n_products, _filter_data, dfTie, groupSumsBy, groupKeys,
      sumSales, valDesc, strDataLe, List.insertionSort, List.orderedInsert,
      List.dedup, List.pwFilter, List.sum_cons, List.sum_nil,
      List.filter_cons, List.filter_nil]
  have h2 : specTopNTableFE dfTie 2 [] [] = [("b", 5), ("a", 5)] := by
    simp [specTopNTableFE, _filter_data, dfTie, dedupFirst, dedupFirstAux,
      sumSales, valDesc, List.insertionSort, List.orderedInsert,
      List.sum_cons, List.sum_nil, List.filter_cons, List.filter_nil]
  refine ⟨h1, h2, ?_⟩
  rw [h1, h2]
  simp

/-- C2 (amended): `top_n_products` groups the filtered rows by product, sums
`total_sales` per product, orders descending by that sum with ties broken in
ascending product (code-point) order — the `groupby` pre-sorts the group
keys and the stable descending sort preserves that among equal sums — and
returns exactly `min n (number of distinct products)` rows, never padded. -/
theorem c2_topn_amended (df : List Row) (n : Nat) (ys : List Int)
    (rs : List String) :
    ((top_n_products df n ys rs).table).length =
      min n (((_filter_data df ys rs).map Row.product).dedup).length ∧
    List.Sorted valDesc ((top_n_products df n ys rs).table) ∧
    ((top_n_products df n ys rs).table).Pairwise
      (fun a b => a.2 = b.2 → a.1.data < b.1.data) := by
  refine ⟨?_, ?_, ?_⟩
  · simp only [top_n_products]
    rw [List.length_take, List.length_insertionSort, groupSumsBy,
      List.length_map, groupKeys, List.length_insertionSort]
  · simp only [top_n_products]
    exact List.Pairwise.sublist (List.take_sublist _ _)
      (List.sorted_insertionSort valDesc _)
  · simp only [top_n_products]
    refine List.Pairwise.sublist (List.take_sublist _ _) ?_
    apply pairwise_tie_insertionSort (fun k l : String => k.data < l.data)
    exact List.pairwise_map.mpr
      (by simpa using groupKeys_product_strict (_filter_data df ys rs))

/-! ## C7 -/

theorem yearTokenAt_lt_length {cs : List Char} {i : Nat} {y : Int}
    (h : yearTokenAt cs i = some y) : i < cs.length := by
  by_contra hi
  have hg : cs.get? i = none := List.get?_eq_none.mpr (Nat.le_of_not_lt hi)
  unfold yearTokenAt at h
  rw [hg] at h
  exact Option.noConfusion h

/-- C7: `extract_years` returns exactly the set of integers occurring as a
word-bounded `20\d\d` token in the message, de-duplicated and sorted
strictly ascending. -/
theorem c7_extract_years (m : String) :
    (∀ y : Int, y ∈ extract_years m ↔ ∃ i, yearTokenAt m.data i = some y) ∧
    List.Sorted (· < ·) (extract_years m) ∧
    extract_years "compare 2023 and 2022 and 2023" = [2022, 2023] := by
  refine ⟨fun y => ?_, ?_, by decide⟩
  · unfold extract_years
    rw [List.mem_insertionSort, List.mem_dedup, List.mem_filterMap]
    constructor
    · rintro ⟨i, -, hiy⟩
      exact ⟨i, hiy⟩
    · rintro ⟨i, hiy⟩
      exact ⟨i, List.mem_range.mpr (yearTokenAt_lt_length hiy), hiy⟩
  · unfold extract_years
    have hnd := (List.perm_insertionSort ((· ≤ ·) : Int → Int → Prop)
      (((List.range m.data.length).filterMap
        (yearTokenAt m.data)).dedup)).nodup_iff.mpr (List.nodup_dedup _)
    exact (List.sorted_insertionSort _ _).lt_of_le hnd

/-! ## C8 -/

theorem tryTopAt_one_le {cs : List Char} {n : Nat}
    (h : tryTopAt cs = some n) : 1 ≤ n := by
  rcases cs with - | ⟨c1, - | ⟨c2, - | ⟨c3, rest⟩⟩⟩ <;>
    simp only [tryTopAt] at h
  · exact Option.noConfusion h
  · exact Option.noConfusion h
  · exact Option.noConfusion h
  · split_ifs at h
    all_goals
      first
      | exact Option.noConfusion h
      | · obtain rfl := Option.some.inj h
          exact le_max_left 1 _

theorem scanTopN_one_le : ∀ (cs : List Char) {n : Nat},
    scanTopN cs = some n → 1 ≤ n := by
  intro cs
  induction cs with
  | nil => intro n h; exact Option.noConfusion h
  | cons c rest ih =>
    intro n h
    unfold scanTopN at h
    cases htry : tryTopAt (c :: rest) with
    | some k =>
      rw [htry] at h
      obtain rfl : k = n := Option.some.inj h
      exact tryTopAt_one_le htry
    | none =>
      rw [htry] at h
      exact ih h

/-- C8: `extract_top_n` never fails; a `top\s+(\d+)` match yields the parsed
digit group clamped to a minimum of 1 (so "top 0" gives 1 and "top 3" gives
3), and no match gives no value. -/
theorem c8_extract_top_n :
    (∀ (m : String) (n : Nat), extract_top_n m = some n → 1 ≤ n) ∧
    extract_top_n "show me the top 3 products" = some 3 ∧
    extract_top_n "top products" = none ∧
    extract_top_n "top 0" = some 1 :=
  ⟨fun _ _ h => scanTopN_one_le _ h, by decide, by decide, by decide⟩

theorem c8_witness : extract_top_n "top 0" = some 1 ∧ 1 ≤ 1 :=
  ⟨by decide, c8_extract_top_n.1 "top 0" 1 (by decide)⟩

/-! ## C9 -/

/-- C9: rounding to 2 decimals happens exactly once, in the single-row Total
Sales table; every row of the grouping aggregators carries the exact
(unrounded) group sum of the filtered rows for its key. -/
theorem c9_rounding_only_total (df : List Row) (n : Nat) (ys : List Int)
    (rs : List String) (year : Option Int) (region : Option String) :
    (total_sales df ys rs).table =
      [pyRound2 (sumSales (_filter_data df ys rs))] ∧
    (∀ pv ∈ (top_n_products df n ys rs).table,
      pv.2 = sumSales ((_filter_data df ys rs).filter
        (fun r => r.product = pv.1))) ∧
    (∀ pv ∈ (sales_by_region df ys).table,
      pv.2 = sumSales ((_filter_data df ys []).filter
        (fun r => r.region = pv.1))) ∧
    (∀ pv ∈ (monthly_trend df year region).table,
      pv.2 = sumSales ((monthlyData df year region).filter
        (fun r => r.month = pv.1))) ∧
    (∀ pv ∈ (year_comparison df ys region).table,
      pv.2 = sumSales ((_filter_data df (yearsUsed df ys)
        (regionListOf region)).filter (fun r => r.year = pv.1))) := by
  refine ⟨rfl, fun pv hpv => ?_, fun pv hpv => ?_, fun pv hpv => ?_,
    fun pv hpv => ?_⟩
  · simp only [top_n_products] at hpv
    exact mem_groupSumsBy ((List.mem_insertionSort valDesc).mp
      ((List.take_sublist _ _).subset hpv))
  · simp only [sales_by_region] at hpv
    exact mem_groupSumsBy ((List.mem_insertionSort valDesc).mp hpv)
  · simp only [monthly_trend] at hpv
    exact mem_groupSumsBy hpv
  · simp only [year_comparison] at hpv
    exact mem_groupSumsBy ((List.mem_insertionSort keyAsc).mp hpv)

theorem c9_witness :
    (total_sales dfOne [] []).table = [1] ∧
    (top_n_products dfOne 5 [] []).table = [("w", 201/200)] ∧
    ("w", (201 : ℚ)/200).2 =
      sumSales ((_filter_data dfOne [] []).filter
        (fun r => r.product = ("w", (201 : ℚ)/200).1)) := by
  have htab : (top_n_products dfOne 5 [] []).table = [("w", 201/200)] := by
    simp [top_n_products, _filter_data, dfOne, groupSumsBy, groupKeys,
      sumSales, valDesc, strDataLe, List.insertionSort, List.orderedInsert,
      List.dedup, List.pwFilter, List.sum_cons, List.sum_nil,
      List.filter_cons, List.filter_nil]
  have hsum : sumSales (_filter_data dfOne [] []) = 201/200 := by
    simp [sumSales, _filter_data, dfOne]
  refine ⟨?_, htab, ?_⟩
  · rw [(c9_rounding_only_total dfOne 5 [] [] none none).1, hsum]
    norm_num [pyRound2, roundHalfEven]
  · exact (c9_rounding_only_total dfOne 5 [] [] none none).2.1
      ("w", 201/200) (htab ▸ List.mem_singleton.mpr rfl)

end Chatbot
